import Mathlib

/-!
Shallow embedding of the Ready Trader Go autotrader in src/autotrader.cc.

Conventions of the embedding:
* C++ `unsigned long` (64-bit on the target platform) is modelled as `Nat`
  together with explicit reduction modulo `U64 = 2 ^ 64` at every operation
  that can wrap (`uadd`, `usub`).  All values stored by the program are kept
  below `U64`.
* C++ `long` / signed members are modelled as `Int`.
* `std::queue<unsigned long>` members (the rolling midprice windows and the
  spread history) are modelled as `List Nat` with the head of the list being
  the front (oldest element) of the queue: `push_back` appends at the end,
  `pop` drops the head, and indexing `q[i]` is `List.getD q i 0` (index 0 is
  the oldest element).  The source indexes these queues with `operator[]`,
  which `std::queue` does not provide; the intended FIFO/random-access
  container is modelled here, matching the spec's PriceWindow description.
* `std::unordered_set<unsigned long>` (`mAsks`, `mBids`) is `Finset Nat`.
* Undefined behaviour (division by zero, out-of-bounds queue access) is
  modelled by returning `none`; a run of the engine is poisoned from the
  first undefined step onwards.
* The gateway header (ready_trader_go) is not part of src; its constants
  `MINIMUM_BID` and `MAXIMUM_ASK` are kept abstract in `GatewayParams`.
-/

namespace AutoTrader

/-- Modulus of C++ `unsigned long`: 2 ^ 64. -/
def U64 : Nat := 2 ^ 64

/-- Wrapping addition of two `unsigned long` values. -/
def uadd (a b : Nat) : Nat := (a + b) % U64

/-- Wrapping subtraction of two `unsigned long` values
(`a - b` in C++ unsigned arithmetic). -/
def usub (a b : Nat) : Nat := (a % U64 + (U64 - b % U64)) % U64

/-- Conversion of a C++ `long` value to `unsigned long`
(reduction modulo 2 ^ 64, as in the usual arithmetic conversions). -/
def toU64 (z : Int) : Nat := (z % (U64 : Int)).toNat

/-- `constexpr int LOT_SIZE = 10` (src/autotrader.cc line 35). -/
def LOT_SIZE : Nat := 10

/-- `constexpr int POSITION_LIMIT = 100` (line 36). -/
def POSITION_LIMIT : Nat := 100

/-- `constexpr int TICK_SIZE_IN_CENTS = 100` (line 37). -/
def TICK_SIZE_IN_CENTS : Nat := 100

/-- `constexpr int MIN_BID_NEARST_TICK = (MINIMUM_BID + TICK_SIZE_IN_CENTS) /
TICK_SIZE_IN_CENTS * TICK_SIZE_IN_CENTS` (line 38); `MINIMUM_BID` comes from
the gateway header, which is not under src, so it stays a parameter. -/
def MIN_BID_NEARST_TICK (MINIMUM_BID : Nat) : Nat :=
  (MINIMUM_BID + TICK_SIZE_IN_CENTS) / TICK_SIZE_IN_CENTS * TICK_SIZE_IN_CENTS

/-- `constexpr int MAX_ASK_NEAREST_TICK = MAXIMUM_ASK / TICK_SIZE_IN_CENTS *
TICK_SIZE_IN_CENTS` (line 39). -/
def MAX_ASK_NEAREST_TICK (MAXIMUM_ASK : Nat) : Nat :=
  MAXIMUM_ASK / TICK_SIZE_IN_CENTS * TICK_SIZE_IN_CENTS

/-- The loop at lines 67-70 of `deterMineOrderStatus`: it sums the queue
entries at indices `1 .. size-1` (it starts at `i = 1`, so the OLDEST entry,
index 0, is skipped and the NEWEST entry, index `size-1`, is included) with
`unsigned long` wrap-around. -/
def loopSum (q : List Nat) : Nat := (q.drop 1).foldl uadd 0

/-- `avgDif` as computed at lines 66-71: the loop sum divided by
`DIFF_recent_mp_price.size() - 1`.  The divisor's member name in the source
lacks the final `s`; with the sole spread history in sight (and per the
spec's description of `spreadMean`) it is identified with the queue that was
passed in, so the divisor is `q.length - 1`.  When `q.length = 1` the C++
division is a division by zero (undefined behaviour); callers must guard. -/
def avgDif (q : List Nat) : Nat := loopSum q / (q.length - 1)

/-- The accumulation loop at lines 74-78: for each index `1 .. size-1` it adds
`std::pow(avgDif - q[i], 2)` to the accumulator.  The subtraction
`avgDif - q[i]` is `unsigned long` wrap-around; the `std::pow` round trip
through `double` can lose low bits for huge operands, but the accumulated
value is irrelevant to the final result because of the exponent in
`stdDevDif` (see below), so exact `Nat` squaring reduced mod 2 ^ 64 is used. -/
def sqDevLoop (q : List Nat) : Nat :=
  (q.drop 1).foldl (fun acc x => uadd acc (usub (avgDif q) x ^ 2 % U64)) 0

/-- Line 79: `stdDevDif = std::pow(stdDevDif /= (size - 1), 1/2)`.
The exponent `1/2` is C++ INTEGER division, which is 0, exactly as `1 / 2 = 0`
here on `Nat`; so the expression is `x ^ 0 = 1` for every `x`. -/
def stdDevDif (q : List Nat) : Nat := (sqDevLoop q / (q.length - 1)) ^ (1 / 2)

/-- The comparison cascade at lines 82-93, parameterised by the newest sample
`last`, the mean `avg` and the deviation `sd`.  All arithmetic is
`unsigned long`, so `avg + 1*sd` and `avg - 1*sd` wrap modulo 2 ^ 64.
Result `(ETF_Much_Greater, FTR_Much_Greater)`. -/
def classify (last avg sd : Nat) : Bool × Bool :=
  if last > uadd avg (1 * sd) then (true, false)
  else if last < usub avg (1 * sd) then (false, true)
  else (false, false)

/-- C++ `unsigned long` division; division by zero is undefined behaviour,
modelled as `none`. -/
def udivChecked (a b : Nat) : Option Nat :=
  if b = 0 then none else some (a / b)

/-- `AutoTrader::deterMineOrderStatus` (lines 62-94), with each source
operation modelled in order: the loop sum (lines 67-70), the division by
`size - 1` (line 71, where the subtraction is `size_t` arithmetic, so the
divisor is `usub q.length 1`, which is 0 exactly when the history holds one
sample - a division by zero, hence `none`), the squared-deviation loop and
its division plus the integer exponent `1/2 = 0` (lines 74-79), the access
`q[last]` (line 82, out of bounds on an empty history, hence `none`), and the
comparison cascade (`classify`, lines 82-93). -/
def deterMineOrderStatus (q : List Nat) : Option (Bool × Bool) :=
  (udivChecked (loopSum q) (usub q.length 1)).bind (fun avg =>
    (udivChecked
        ((q.drop 1).foldl (fun acc x => uadd acc (usub avg x ^ 2 % U64)) 0)
        (usub q.length 1)).bind (fun sdQ =>
      (q.getLast?).map (fun last => classify last avg (sdQ ^ (1 / 2)))))

/-- The rolling-window update at lines 148-156 / 228-236: if the window has
at most 31 entries a new midprice is appended as is; otherwise the oldest
entry is popped first.  (The size check `<= 31` lets the window grow to 32
entries, despite the adjacent comment "rolling avg for thirty".) -/
def recordMidprice (w : List Nat) (mp : Nat) : List Nat :=
  if w.length ≤ 31 then w ++ [mp] else w.drop 1 ++ [mp]

/-- Folding `recordMidprice` over a whole arrival sequence, starting from the
empty window. -/
def recordAll (ms : List Nat) : List Nat := ms.foldl recordMidprice []

/-- The spread sample pushed at lines 165 / 245: the difference of the two
newest midprices in `unsigned long` arithmetic (wraps when the future
midprice exceeds the ETF midprice). -/
def spreadSample (etfLast ftrLast : Nat) : Nat := usub etfLast ftrLast

/-- Mean over the trailing spread samples EXCLUDING the newest one, following
the spec's words for `spreadMean()` ("statistics describe history, the newest
sample is compared against them").  Named definition for comparison with the
source's `avgDif`. -/
def spreadMeanSpec (q : List Nat) : Nat :=
  (q.take (q.length - 1)).sum / (q.length - 1)

/-- Modelled from the spec: the gateway header (ready_trader_go) defining the
price-band constants `MINIMUM_BID` and `MAXIMUM_ASK` is not under src; the
spec only calls the derived prices "the extreme allowed tick", so the two
constants are kept abstract. -/
structure GatewayParams where
  MINIMUM_BID : Nat
  MAXIMUM_ASK : Nat
  deriving DecidableEq

/-- Order side (`Side::BUY` / `Side::SELL`). -/
inductive Side where
  | BUY
  | SELL
  deriving DecidableEq

/-- Which gateway send primitive an outbound order used:
`SendInsertOrder` or `SendHedgeOrder`. -/
inductive OrderKind where
  | Insert
  | Hedge
  deriving DecidableEq

/-- An outbound order as handed to the gateway.  The lifespan argument is
`GOOD_FOR_DAY` at every call site and is omitted. -/
structure Order where
  kind : OrderKind
  id : Nat
  side : Side
  price : Nat
  volume : Nat
  deriving DecidableEq

/-- `Instrument` of the gateway callbacks. -/
inductive Instrument where
  | ETF
  | FUTURE
  deriving DecidableEq

/-- The long-lived members of class `AutoTrader`.  The declarations live in
autotrader.h (not under src); every member mentioned in the .cc file is a
field here, with write-only bookkeeping vectors (`my_*`) included.
`FTR_ask_vol_arr` and `FTR_bid_vol_arr` are read by the hedge-order sizing
code but never assigned by any handler. -/
structure TraderState where
  ETF_ask_arr : List Nat
  ETF_bid_arr : List Nat
  FTR_ask_arr : List Nat
  FTR_bid_arr : List Nat
  FTR_ask_vol_arr : List Nat
  FTR_bid_vol_arr : List Nat
  ETF_bestAsk : Nat
  ETF_bestBid : Nat
  FTR_bestAsk : Nat
  FTR_bestBid : Nat
  ETF_midprice : Nat
  FTR_midprice : Nat
  ETF_recent_mp_prices : List Nat
  FTR_recent_mp_prices : List Nat
  DIFF_recent_mp_prices : List Nat
  ETF_Much_Greater : Bool
  FTR_Much_Greater : Bool
  ETF_Pos : Int
  FTR_Pos : Int
  mPosition : Int
  mAsks : Finset Nat
  mBids : Finset Nat
  mAskId : Nat
  mBidId : Nat
  mAskID : Nat
  mNextMessageId : Nat
  my_ETF_ask_arr : List Nat
  my_ETF_ask_ids : List Nat
  my_ETF_ask_vol_arr : List Nat
  my_ETF_bid_arr : List Nat
  my_ETF_bid_ids : List Nat
  my_etf_bid_vol_arr : List Nat
  my_FTR_bid_arr : List Nat
  my_FTR_ask_ids : List Nat
  my_FTR_bid_vol_arr : List Nat
  my_FTR_ask_arr : List Nat
  my_FTR_ask_vol_arr : List Nat
  deriving DecidableEq

/-- Modelled from the spec: the initial member values come from autotrader.h
and the `AutoTrader` constructor, which only forwards to the base class; the
spec's initialization contract (section 9) is "all counters zero, all windows
empty". -/
def initState : TraderState where
  ETF_ask_arr := []
  ETF_bid_arr := []
  FTR_ask_arr := []
  FTR_bid_arr := []
  FTR_ask_vol_arr := []
  FTR_bid_vol_arr := []
  ETF_bestAsk := 0
  ETF_bestBid := 0
  FTR_bestAsk := 0
  FTR_bestBid := 0
  ETF_midprice := 0
  FTR_midprice := 0
  ETF_recent_mp_prices := []
  FTR_recent_mp_prices := []
  DIFF_recent_mp_prices := []
  ETF_Much_Greater := false
  FTR_Much_Greater := false
  ETF_Pos := 0
  FTR_Pos := 0
  mPosition := 0
  mAsks := ∅
  mBids := ∅
  mAskId := 0
  mBidId := 0
  mAskID := 0
  mNextMessageId := 0
  my_ETF_ask_arr := []
  my_ETF_ask_ids := []
  my_ETF_ask_vol_arr := []
  my_ETF_bid_arr := []
  my_ETF_bid_ids := []
  my_etf_bid_vol_arr := []
  my_FTR_bid_arr := []
  my_FTR_ask_ids := []
  my_FTR_bid_vol_arr := []
  my_FTR_ask_arr := []
  my_FTR_ask_vol_arr := []

/-- Lines 163-167 / 243-247 (shared by both instrument branches): if the two
midprice windows have equal size, push the `unsigned long` difference of
their newest entries onto the spread history and run `deterMineOrderStatus`
on it, storing the two result flags.  Undefined behaviour inside
`deterMineOrderStatus` poisons the step (`none`). -/
def signalStep (s : TraderState) : Option TraderState :=
  if s.ETF_recent_mp_prices.length = s.FTR_recent_mp_prices.length then
    let d := spreadSample (s.ETF_recent_mp_prices.getLastD 0)
                          (s.FTR_recent_mp_prices.getLastD 0)
    let q := s.DIFF_recent_mp_prices ++ [d]
    match deterMineOrderStatus q with
    | none => none
    | some (e, f) =>
        some { s with DIFF_recent_mp_prices := q,
                      ETF_Much_Greater := e, FTR_Much_Greater := f }
  else some s

/-- The `ETF_Much_Greater` branch (lines 170-192): sell ETF at the best bid
with volume `min(LOT_SIZE, ETF_bid_arr[0])` (note: `ETF_bid_arr` holds the
bid PRICES), record it in the `my_*` vectors, then hedge-buy FTR at the best
ask with volume `min(LOT_SIZE, FTR_ask_vol_arr[0])` (a member no handler ever
assigns).  Both sends pass `mAskID` as the client order id. -/
def sellBranch (s : TraderState) : TraderState × List Order :=
  let vol := min LOT_SIZE (s.ETF_bid_arr.getD 0 0)
  let vol2 := min LOT_SIZE (s.FTR_ask_vol_arr.getD 0 0)
  ({ s with my_ETF_ask_arr := s.my_ETF_ask_arr ++ [s.ETF_bestBid],
            my_ETF_ask_ids := s.my_ETF_ask_ids ++ [s.mAskID],
            my_ETF_ask_vol_arr := s.my_ETF_ask_vol_arr ++ [vol],
            my_FTR_bid_arr := s.my_FTR_bid_arr ++ [s.FTR_bestAsk],
            my_FTR_ask_ids := s.my_FTR_ask_ids ++ [s.mAskID],
            my_FTR_bid_vol_arr := s.my_FTR_bid_vol_arr ++ [vol2] },
   [⟨OrderKind.Insert, s.mAskID, Side.SELL, s.ETF_bestBid, vol⟩,
    ⟨OrderKind.Hedge, s.mAskID, Side.BUY, s.FTR_bestAsk, vol2⟩])

/-- The `FTR_Much_Greater` branch (lines 193-215): buy ETF at the best ask
with volume `min(LOT_SIZE, ETF_ask_arr[0])` (ask PRICES), then hedge-sell FTR
at the best bid with volume `min(LOT_SIZE, FTR_bid_vol_arr[0])` (again a
member no handler ever assigns). -/
def buyBranch (s : TraderState) : TraderState × List Order :=
  let vol := min LOT_SIZE (s.ETF_ask_arr.getD 0 0)
  let vol2 := min LOT_SIZE (s.FTR_bid_vol_arr.getD 0 0)
  ({ s with my_ETF_bid_arr := s.my_ETF_bid_arr ++ [s.ETF_bestAsk],
            my_ETF_bid_ids := s.my_ETF_bid_ids ++ [s.mAskID],
            my_etf_bid_vol_arr := s.my_etf_bid_vol_arr ++ [vol],
            my_FTR_ask_arr := s.my_FTR_ask_arr ++ [s.FTR_bestBid],
            my_FTR_ask_ids := s.my_FTR_ask_ids ++ [s.mAskID],
            my_FTR_ask_vol_arr := s.my_FTR_ask_vol_arr ++ [vol2] },
   [⟨OrderKind.Insert, s.mAskID, Side.BUY, s.ETF_bestAsk, vol⟩,
    ⟨OrderKind.Hedge, s.mAskID, Side.SELL, s.FTR_bestBid, vol2⟩])

/-- Lines 158-216 / 238-297: the body guarded by
`ETF_midprice != 0 && FTR_midprice != 0`.  The pre-send headroom checks are
the source's mixed signed/unsigned comparisons: `ETF_Pos` (a `long`) is
converted to `unsigned long`, the subtraction/addition wraps, and the literal
`-100` converts to `U64 - 100`.  This block is textually identical in the ETF
branch, the FUTURE branch, and both `TradeTicksMessageHandler` branches. -/
def tradingBlock (s : TraderState) : Option (TraderState × List Order) :=
  if s.ETF_midprice ≠ 0 ∧ s.FTR_midprice ≠ 0 then
    match signalStep s with
    | none => none
    | some s1 =>
        if s1.ETF_Much_Greater = true ∧
            usub (toU64 s1.ETF_Pos) (min LOT_SIZE (s1.ETF_bid_arr.getD 0 0)) >
              U64 - 100 then
          some (sellBranch s1)
        else if s1.FTR_Much_Greater = true ∧
            uadd (toU64 s1.ETF_Pos) (min LOT_SIZE (s1.ETF_bid_arr.getD 0 0)) <
              100 then
          some (buyBranch s1)
        else some (s1, [])
  else some (s, [])

/-- Lines 138-156: the ETF snapshot update: store the price arrays, the best
prices, the midprice `(bestAsk + bestBid) / 2` (unsigned), and push the
midprice onto the rolling window. -/
def snapshotETF (s : TraderState) (askPrices bidPrices : List Nat) :
    TraderState :=
  let bestAsk := askPrices.getD 0 0
  let bestBid := bidPrices.getD 0 0
  let mid := uadd bestAsk bestBid / 2
  { s with ETF_ask_arr := askPrices, ETF_bid_arr := bidPrices,
           ETF_bestAsk := bestAsk, ETF_bestBid := bestBid,
           ETF_midprice := mid,
           ETF_recent_mp_prices := recordMidprice s.ETF_recent_mp_prices mid }

/-- Lines 221-236: the FUTURE snapshot update, symmetric to `snapshotETF`. -/
def snapshotFTR (s : TraderState) (askPrices bidPrices : List Nat) :
    TraderState :=
  let bestAsk := askPrices.getD 0 0
  let bestBid := bidPrices.getD 0 0
  let mid := uadd bestAsk bestBid / 2
  { s with FTR_ask_arr := askPrices, FTR_bid_arr := bidPrices,
           FTR_bestAsk := bestAsk, FTR_bestBid := bestBid,
           FTR_midprice := mid,
           FTR_recent_mp_prices := recordMidprice s.FTR_recent_mp_prices mid }

/-- The shared body of `OrderBookMessageHandler` (lines 125-298) and
`TradeTicksMessageHandler` (lines 346-519), which are verbatim duplicates:
per-instrument snapshot update followed by the trading block.  The volume
arrays of the callback are only logged, never stored. -/
def marketUpdateHandler (s : TraderState) (instrument : Instrument)
    (askPrices askVolumes bidPrices bidVolumes : List Nat) :
    Option (TraderState × List Order) :=
  match instrument with
  | Instrument.ETF => tradingBlock (snapshotETF s askPrices bidPrices)
  | Instrument.FUTURE => tradingBlock (snapshotFTR s askPrices bidPrices)

/-- `AutoTrader::OrderBookMessageHandler` (lines 125-298). -/
def OrderBookMessageHandler := marketUpdateHandler

/-- `AutoTrader::TradeTicksMessageHandler` (lines 346-519), a verbatim
duplicate of the order-book handler. -/
def TradeTicksMessageHandler := marketUpdateHandler

/-- `AutoTrader::OrderFilledMessageHandler` (lines 303-319): a fill on a
tracked ask reduces `mPosition` and hedge-buys the fill volume at
`MAX_ASK_NEAREST_TICK`; a fill on a tracked bid (that is not a tracked ask)
increases `mPosition` and hedge-sells at `MIN_BID_NEARST_TICK`; any other id
does nothing.  `mNextMessageId++` passes the old value and increments. -/
def OrderFilledMessageHandler (p : GatewayParams) (s : TraderState)
    (clientOrderId price volume : Nat) : TraderState × List Order :=
  if clientOrderId ∈ s.mAsks then
    ({ s with mPosition := s.mPosition - (volume : Int),
              mNextMessageId := s.mNextMessageId + 1 },
     [⟨OrderKind.Hedge, s.mNextMessageId, Side.BUY,
       MAX_ASK_NEAREST_TICK p.MAXIMUM_ASK, volume⟩])
  else if clientOrderId ∈ s.mBids then
    ({ s with mPosition := s.mPosition + (volume : Int),
              mNextMessageId := s.mNextMessageId + 1 },
     [⟨OrderKind.Hedge, s.mNextMessageId, Side.SELL,
       MIN_BID_NEARST_TICK p.MINIMUM_BID, volume⟩])
  else (s, [])

/-- `AutoTrader::OrderStatusMessageHandler` (lines 323-342): when
`remainingVolume` is 0, clear whichever of `mAskId` / `mBidId` equals the id
(in that priority order), then erase the id from both tracking sets. -/
def OrderStatusMessageHandler (s : TraderState)
    (clientOrderId fillVolume remainingVolume : Nat) (fees : Int) :
    TraderState :=
  if remainingVolume = 0 then
    let s1 := if clientOrderId = s.mAskId then { s with mAskId := 0 }
              else if clientOrderId = s.mBidId then { s with mBidId := 0 }
              else s
    { s1 with mAsks := s1.mAsks.erase clientOrderId,
              mBids := s1.mBids.erase clientOrderId }
  else s

/-- `AutoTrader::ErrorMessageHandler` (lines 105-113): log, and when the id is
nonzero and tracked in either set, force-close it via a status update with
zero fill and zero remaining volume.  The error message itself only reaches
the log. -/
def ErrorMessageHandler (s : TraderState) (clientOrderId : Nat) :
    TraderState :=
  if clientOrderId ≠ 0 ∧ (clientOrderId ∈ s.mAsks ∨ clientOrderId ∈ s.mBids)
  then OrderStatusMessageHandler s clientOrderId 0 0 0
  else s

/-- One inbound gateway callback. -/
inductive Callback where
  | orderBook (instrument : Instrument) (sequenceNumber : Nat)
      (askPrices askVolumes bidPrices bidVolumes : List Nat)
  | tradeTicks (instrument : Instrument) (sequenceNumber : Nat)
      (askPrices askVolumes bidPrices bidVolumes : List Nat)
  | orderFilled (clientOrderId price volume : Nat)
  | hedgeFilled (clientOrderId price volume : Nat)
  | orderStatus (clientOrderId fillVolume remainingVolume : Nat) (fees : Int)
  | errorMessage (clientOrderId : Nat)
  | disconnect

/-- Dispatch of one callback to its handler.  `HedgeFilledMessageHandler` and
`DisconnectHandler` only log.  `none` marks a step with undefined behaviour. -/
def step (p : GatewayParams) (s : TraderState) :
    Callback → Option (TraderState × List Order)
  | Callback.orderBook inst _ ap av bp bv =>
      OrderBookMessageHandler s inst ap av bp bv
  | Callback.tradeTicks inst _ ap av bp bv =>
      TradeTicksMessageHandler s inst ap av bp bv
  | Callback.orderFilled id price vol =>
      some (OrderFilledMessageHandler p s id price vol)
  | Callback.hedgeFilled _ _ _ => some (s, [])
  | Callback.orderStatus id fv rv fees =>
      some (OrderStatusMessageHandler s id fv rv fees, [])
  | Callback.errorMessage id => some (ErrorMessageHandler s id, [])
  | Callback.disconnect => some (s, [])

/-- Run the engine over a callback sequence; the first undefined step poisons
the rest of the run. -/
def run (p : GatewayParams) (s : TraderState) : List Callback →
    Option TraderState
  | [] => some s
  | cb :: rest =>
      match step p s cb with
      | none => none
      | some (s', _) => run p s' rest

/-- The orders emitted by a possibly-undefined handler invocation. -/
def ordersOf : Option (TraderState × List Order) → List Order
  | none => []
  | some r => r.2

/-- The spread history of a possibly-undefined intermediate state. -/
def diffHistoryOf : Option TraderState → List Nat
  | none => []
  | some t => t.DIFF_recent_mp_prices

/-- The state predicate that actually holds on every defined reachable state:
the tracking sets stay empty (no handler ever inserts into `mAsks` / `mBids`)
and all three position members stay 0 (`ETF_Pos` / `FTR_Pos` are never
assigned; `mPosition` is only changed by fills on tracked ids). -/
def PositionInv (s : TraderState) : Prop :=
  s.mAsks = ∅ ∧ s.mBids = ∅ ∧ s.mPosition = 0 ∧ s.ETF_Pos = 0 ∧ s.FTR_Pos = 0

/-- Concrete gateway parameters used by witness evaluations. -/
def p0 : GatewayParams := ⟨1, 200000⟩

/-- Concrete trader state for exercising the sell branch of the market-update
handlers: the rich-ETF flag is preset and the window lengths differ, so the
signal step is skipped and no undefined statistics code runs. -/
def s6 : TraderState :=
  { initState with
      ETF_Much_Greater := true,
      ETF_midprice := 200, FTR_midprice := 100,
      ETF_recent_mp_prices := [200, 200],
      FTR_recent_mp_prices := [100],
      FTR_bestAsk := 101, FTR_bestBid := 99 }

/-- The insert order that `s6` provokes on the book update with ask prices
[201], ask volumes [9], bid prices [199], bid volumes [3]. -/
def o6 : Order := ⟨OrderKind.Insert, 0, Side.SELL, 199, 10⟩

/-- Concrete trader state with a tracked ask order, for the fill handler. -/
def s8 : TraderState := { initState with mAsks := {7}, mNextMessageId := 3 }

/-- Concrete trader state with several tracked orders, for the error
handler. -/
def s9 : TraderState :=
  { initState with mAsks := {5, 7}, mBids := {9}, mAskId := 5, mBidId := 9 }

/-- Concrete trader state in which the next spread sample wraps (the future
midprice 250 exceeds the ETF midprice 100) and the spread history already
holds one sample, so the statistics step is defined. -/
def sA : TraderState :=
  { initState with
      ETF_recent_mp_prices := [100],
      FTR_recent_mp_prices := [250],
      DIFF_recent_mp_prices := [5] }

theorem U64_pos : 0 < U64 := by norm_num [U64]

theorem uadd_lt (a b : Nat) : uadd a b < U64 := Nat.mod_lt _ U64_pos

theorem uadd_eq_of_lt {a b : Nat} (h : a + b < U64) : uadd a b = a + b :=
  Nat.mod_eq_of_lt h

theorem usub_eq_of_le {a b : Nat} (hb : b ≤ a) (ha : a < U64) :
    usub a b = a - b := by
  have hbU : b < U64 := lt_of_le_of_lt hb ha
  unfold usub
  rw [Nat.mod_eq_of_lt ha, Nat.mod_eq_of_lt hbU]
  rw [show a + (U64 - b) = U64 + (a - b) by omega, Nat.add_mod_left,
    Nat.mod_eq_of_lt (by omega)]

theorem foldl_uadd (l : List Nat) (a : Nat) (ha : a < U64) :
    l.foldl uadd a = (a + l.sum) % U64 := by
  induction l generalizing a with
  | nil => simpa using (Nat.mod_eq_of_lt ha).symm
  | cons x t ih =>
      simp only [List.foldl_cons, List.sum_cons]
      rw [ih (uadd a x) (uadd_lt a x)]
      unfold uadd
      rw [Nat.mod_add_mod, Nat.add_assoc]

theorem signalStep_frame (s s1 : TraderState) (h : signalStep s = some s1) :
    s1.mAsks = s.mAsks ∧ s1.mBids = s.mBids ∧ s1.mPosition = s.mPosition ∧
    s1.ETF_Pos = s.ETF_Pos ∧ s1.FTR_Pos = s.FTR_Pos ∧
    s1.ETF_ask_arr = s.ETF_ask_arr ∧ s1.ETF_bid_arr = s.ETF_bid_arr ∧
    s1.FTR_ask_vol_arr = s.FTR_ask_vol_arr ∧
    s1.FTR_bid_vol_arr = s.FTR_bid_vol_arr := by
  unfold signalStep at h
  dsimp only at h
  split at h
  · split at h
    · exact absurd h (by simp)
    · next e f heq =>
        cases h
        simp
  · cases h
    simp

theorem sellBranch_frame (s : TraderState) :
    (sellBranch s).1.mAsks = s.mAsks ∧ (sellBranch s).1.mBids = s.mBids ∧
    (sellBranch s).1.mPosition = s.mPosition ∧
    (sellBranch s).1.ETF_Pos = s.ETF_Pos ∧
    (sellBranch s).1.FTR_Pos = s.FTR_Pos :=
  ⟨rfl, rfl, rfl, rfl, rfl⟩

theorem buyBranch_frame (s : TraderState) :
    (buyBranch s).1.mAsks = s.mAsks ∧ (buyBranch s).1.mBids = s.mBids ∧
    (buyBranch s).1.mPosition = s.mPosition ∧
    (buyBranch s).1.ETF_Pos = s.ETF_Pos ∧
    (buyBranch s).1.FTR_Pos = s.FTR_Pos :=
  ⟨rfl, rfl, rfl, rfl, rfl⟩

theorem tradingBlock_frame (s : TraderState) (r : TraderState × List Order)
    (h : tradingBlock s = some r) :
    r.1.mAsks = s.mAsks ∧ r.1.mBids = s.mBids ∧
    r.1.mPosition = s.mPosition ∧ r.1.ETF_Pos = s.ETF_Pos ∧
    r.1.FTR_Pos = s.FTR_Pos := by
  unfold tradingBlock at h
  split at h
  · cases hm : signalStep s with
    | none => rw [hm] at h; exact absurd h (by simp)
    | some s1 =>
        rw [hm] at h
        dsimp only at h
        have hf := signalStep_frame s s1 hm
        split_ifs at h <;> cases h
        · exact ⟨(sellBranch_frame s1).1.trans hf.1,
            (sellBranch_frame s1).2.1.trans hf.2.1,
            (sellBranch_frame s1).2.2.1.trans hf.2.2.1,
            (sellBranch_frame s1).2.2.2.1.trans hf.2.2.2.1,
            (sellBranch_frame s1).2.2.2.2.trans hf.2.2.2.2.1⟩
        · exact ⟨(buyBranch_frame s1).1.trans hf.1,
            (buyBranch_frame s1).2.1.trans hf.2.1,
            (buyBranch_frame s1).2.2.1.trans hf.2.2.1,
            (buyBranch_frame s1).2.2.2.1.trans hf.2.2.2.1,
            (buyBranch_frame s1).2.2.2.2.trans hf.2.2.2.2.1⟩
        · exact ⟨hf.1, hf.2.1, hf.2.2.1, hf.2.2.2.1, hf.2.2.2.2.1⟩
  · cases h
    exact ⟨rfl, rfl, rfl, rfl, rfl⟩

theorem step_preserves_inv (p : GatewayParams) (s : TraderState)
    (cb : Callback) (r : TraderState × List Order)
    (h : step p s cb = some r) (hs : PositionInv s) : PositionInv r.1 := by
  obtain ⟨ha, hb, hp, he, hf⟩ := hs
  cases cb with
  | orderBook inst seq ap av bp bv =>
      cases inst with
      | ETF =>
          have := tradingBlock_frame (snapshotETF s ap bp) r h
          exact ⟨this.1.trans ha, this.2.1.trans hb, this.2.2.1.trans hp,
            this.2.2.2.1.trans he, this.2.2.2.2.trans hf⟩
      | FUTURE =>
          have := tradingBlock_frame (snapshotFTR s ap bp) r h
          exact ⟨this.1.trans ha, this.2.1.trans hb, this.2.2.1.trans hp,
            this.2.2.2.1.trans he, this.2.2.2.2.trans hf⟩
  | tradeTicks inst seq ap av bp bv =>
      cases inst with
      | ETF =>
          have := tradingBlock_frame (snapshotETF s ap bp) r h
          exact ⟨this.1.trans ha, this.2.1.trans hb, this.2.2.1.trans hp,
            this.2.2.2.1.trans he, this.2.2.2.2.trans hf⟩
      | FUTURE =>
          have := tradingBlock_frame (snapshotFTR s ap bp) r h
          exact ⟨this.1.trans ha, this.2.1.trans hb, this.2.2.1.trans hp,
            this.2.2.2.1.trans he, this.2.2.2.2.trans hf⟩
  | orderFilled id price vol =>
      simp only [step, OrderFilledMessageHandler, ha, hb,
        Finset.not_mem_empty, if_false, Option.some_inj] at h
      cases h
      exact ⟨ha, hb, hp, he, hf⟩
  | hedgeFilled id price vol =>
      cases h
      exact ⟨ha, hb, hp, he, hf⟩
  | orderStatus id fv rv fees =>
      simp only [step, OrderStatusMessageHandler, Option.some_inj] at h
      cases h
      constructor
      · split_ifs <;> simp [ha, hb]
      constructor
      · split_ifs <;> simp [ha, hb]
      refine ⟨?_, ?_, ?_⟩ <;> split_ifs <;> simp [hp, he, hf]
  | errorMessage id =>
      simp only [step, ErrorMessageHandler, ha, hb, Finset.not_mem_empty,
        or_self, and_false, if_false, Option.some_inj] at h
      cases h
      exact ⟨ha, hb, hp, he, hf⟩
  | disconnect =>
      cases h
      exact ⟨ha, hb, hp, he, hf⟩

theorem run_preserves_inv (p : GatewayParams) :
    ∀ (cbs : List Callback) (s s' : TraderState),
      run p s cbs = some s' → PositionInv s → PositionInv s' := by
  intro cbs
  induction cbs with
  | nil => intro s s' h hs; cases h; exact hs
  | cons cb rest ih =>
      intro s s' h hs
      unfold run at h
      cases hstep : step p s cb with
      | none => rw [hstep] at h; exact absurd h (by simp)
      | some r =>
          rw [hstep] at h
          exact ih r.1 s' h (step_preserves_inv p s cb r hstep hs)

theorem tradingBlock_orders (s : TraderState) :
    ∀ o ∈ ordersOf (tradingBlock s),
      o.volume ≤ LOT_SIZE ∧
      (o.kind = OrderKind.Insert → o.side = Side.SELL →
        o.volume = min LOT_SIZE (s.ETF_bid_arr.getD 0 0)) ∧
      (o.kind = OrderKind.Insert → o.side = Side.BUY →
        o.volume = min LOT_SIZE (s.ETF_ask_arr.getD 0 0)) ∧
      (o.kind = OrderKind.Hedge → o.side = Side.BUY →
        o.volume = min LOT_SIZE (s.FTR_ask_vol_arr.getD 0 0)) ∧
      (o.kind = OrderKind.Hedge → o.side = Side.SELL →
        o.volume = min LOT_SIZE (s.FTR_bid_vol_arr.getD 0 0)) := by
  intro o ho
  unfold tradingBlock at ho
  split at ho
  · cases hm : signalStep s with
    | none => rw [hm] at ho; exact absurd ho (by simp [ordersOf])
    | some s1 =>
        rw [hm] at ho
        dsimp only at ho
        have hf := signalStep_frame s s1 hm
        split_ifs at ho
        · simp only [ordersOf, sellBranch, List.mem_cons, List.mem_singleton,
            List.not_mem_nil, or_false] at ho
          rcases ho with rfl | rfl
          · refine ⟨Nat.min_le_left _ _, ?_, ?_, ?_, ?_⟩ <;>
              simp [hf.2.2.2.2.2.2.1]
          · refine ⟨Nat.min_le_left _ _, ?_, ?_, ?_, ?_⟩ <;>
              simp [hf.2.2.2.2.2.2.2.1]
        · simp only [ordersOf, buyBranch, List.mem_cons, List.mem_singleton,
            List.not_mem_nil, or_false] at ho
          rcases ho with rfl | rfl
          · refine ⟨Nat.min_le_left _ _, ?_, ?_, ?_, ?_⟩ <;>
              simp [hf.2.2.2.2.2.1]
          · refine ⟨Nat.min_le_left _ _, ?_, ?_, ?_, ?_⟩ <;>
              simp [hf.2.2.2.2.2.2.2.2]
        · exact absurd ho (by simp [ordersOf])
  · exact absurd ho (by simp [ordersOf])

/-- Claim C1: for every sequence of gateway callbacks (whose run does not hit
undefined behaviour), the positions tracked by the core stay within
POSITION_LIMIT in absolute value.  This holds, but degenerately: no handler
ever inserts an id into `mAsks` or `mBids`, so fill callbacks never move
`mPosition`, and `ETF_Pos` / `FTR_Pos` are never assigned at all; all three
stay 0 from the spec-mandated initial state. -/
theorem claim1_position_limit_invariant (p : GatewayParams)
    (cbs : List Callback) (s' : TraderState)
    (h : run p initState cbs = some s') :
    s'.mPosition.natAbs ≤ POSITION_LIMIT ∧
    s'.ETF_Pos.natAbs ≤ POSITION_LIMIT ∧
    s'.FTR_Pos.natAbs ≤ POSITION_LIMIT := by
  have hinv := run_preserves_inv p cbs initState s' h
    ⟨rfl, rfl, rfl, rfl, rfl⟩
  rw [hinv.2.2.1, hinv.2.2.2.1, hinv.2.2.2.2]
  exact ⟨by norm_num [POSITION_LIMIT], by norm_num [POSITION_LIMIT],
    by norm_num [POSITION_LIMIT]⟩

/-- Witness for C1: a concrete one-callback run (a fill on the untracked id 1)
stays defined and ends in a state satisfying the bound. -/
theorem claim1_position_limit_invariant_witness :
    initState.mPosition.natAbs ≤ POSITION_LIMIT ∧
    initState.ETF_Pos.natAbs ≤ POSITION_LIMIT ∧
    initState.FTR_Pos.natAbs ≤ POSITION_LIMIT :=
  claim1_position_limit_invariant p0 [Callback.orderFilled 1 100 10]
    initState (by decide)

/-- On histories of at least 2 (and fewer than 2^64) samples the statistics
routine is defined and computes exactly `classify` of the newest sample, the
loop mean `avgDif` and the loop deviation `stdDevDif`. -/
theorem deterMineOrderStatus_eq_of_two_le (q : List Nat) (h2 : 2 ≤ q.length)
    (hU : q.length < U64) :
    deterMineOrderStatus q =
      some (classify (q.getLastD 0) (avgDif q) (stdDevDif q)) := by
  have hdiv : usub q.length 1 = q.length - 1 := usub_eq_of_le (by omega) hU
  have hne : ¬ q.length - 1 = 0 := by omega
  cases hq : q.getLast? with
  | none =>
      rw [List.getLast?_eq_none_iff] at hq
      rw [hq] at h2
      simp at h2
  | some y =>
      simp only [deterMineOrderStatus, udivChecked, hdiv, if_neg hne,
        Option.some_bind, hq, Option.map_some']
      have hy : q.getLastD 0 = y := by
        rw [List.getLastD_eq_getLast?, hq]
        rfl
      rw [hy]
      simp only [avgDif, stdDevDif, sqDevLoop, loopSum]

/-- Claim C2 (code bug): on EVERY one-element spread history the statistics
routine is UNDEFINED - the divisor `size - 1` at line 71 is 0, so the mean
computation divides by zero instead of producing a NEUTRAL verdict; and the
engine reaches exactly that state on the very first complete cycle (one ETF
book update followed by one FUTURE book update), so the first signal
evaluation of every session is a division by zero. -/
theorem claim2_one_sample_divides_by_zero :
    (∀ q : List Nat, q.length = 1 → deterMineOrderStatus q = none) ∧
    run p0 initState
      [Callback.orderBook Instrument.ETF 1 [200] [5] [200] [5],
       Callback.orderBook Instrument.FUTURE 1 [100] [5] [100] [5]] = none := by
  constructor
  · intro q hq
    have h0 : usub q.length 1 = 0 := by
      rw [hq]
      decide
    simp [deterMineOrderStatus, udivChecked, h0]
  · decide

/-- Witness for C2: the divide-by-zero case evaluated on the history [100]. -/
theorem claim2_one_sample_divides_by_zero_witness :
    deterMineOrderStatus [100] = none :=
  claim2_one_sample_divides_by_zero.1 [100] rfl

/-- Claim C3 (code bug): the "standard deviation" at line 79 is
`std::pow(acc / (size-1), 1/2)` whose exponent `1/2` is integer division,
i.e. 0, so the computed deviation is the constant 1 for EVERY spread
history - never sqrt(mean squared deviation). -/
theorem claim3_stddev_constant_one (q : List Nat) : stdDevDif q = 1 := by
  have h : (1 : Nat) / 2 = 0 := rfl
  rw [stdDevDif, h, pow_zero]

/-- Counterexample for C4: on the history [0, 6, 6] the code's mean is 6
(it sums indices 1..2, dropping the OLDEST sample and including the NEWEST),
while the spec's mean over the samples excluding the newest is 3. -/
theorem claim4_counterexample :
    avgDif [0, 6, 6] = 6 ∧ spreadMeanSpec [0, 6, 6] = 3 := by decide

/-- Claim C4 as amended: the mean against which the newest spread sample is
compared is computed over the trailing samples EXCLUDING THE OLDEST one
(list indices 1 .. n-1): the newest sample contributes to the sums and the
oldest does not.  (The deviation loop at lines 75-78 ranges over the same
indices, see `sqDevLoop`.) -/
theorem claim4_mean_excludes_oldest (q : List Nat) (h2 : 2 ≤ q.length)
    (hs : (q.drop 1).sum < U64) :
    avgDif q = (q.drop 1).sum / (q.length - 1) := by
  unfold avgDif loopSum
  rw [foldl_uadd _ 0 U64_pos, Nat.zero_add, Nat.mod_eq_of_lt hs]

/-- Witness for C4: the amended statement evaluated on [0, 6, 6]. -/
theorem claim4_mean_excludes_oldest_witness :
    avgDif [0, 6, 6] =
      (([0, 6, 6] : List Nat).drop 1).sum /
        (([0, 6, 6] : List Nat).length - 1) :=
  claim4_mean_excludes_oldest [0, 6, 6] (by decide) (by decide)

/-- Claim C5 (code bug): the size check `<= 31` before the push lets the
rolling midprice window hold up to 32 samples, not 30.  Evaluated on 33
arrivals: the window holds the most recent 32 in arrival order (FIFO
eviction works, but the capacity exceeds the documented 30). -/
theorem claim5_window_reaches_32 :
    recordAll (List.range 33) = (List.range 33).drop 1 ∧
    30 < (recordAll (List.range 33)).length := by decide

/-- Counterexample for C6: from state `s6`, a book update with displayed
top-of-book bid volume 3 (bid price 199) makes the handler send the insert
order with volume 10 = min(LOT_SIZE, bid PRICE 199) and the hedge order with
volume 0 (from the never-assigned `FTR_ask_vol_arr`); the claimed volume
min(LOT_SIZE, displayed volume) would be 3, so the sent volume exceeds the
displayed liquidity. -/
theorem claim6_counterexample :
    (OrderBookMessageHandler s6 Instrument.ETF [201] [9] [199] [3]).map
        (fun r => r.2.map (fun o => o.volume)) = some [10, 0] ∧
    min LOT_SIZE (([3] : List Nat).getD 0 0) ≠ 10 := by decide

/-- Claim C6 as amended: every order sent by the market-update handlers has
volume at most LOT_SIZE, but the second argument of the `min` is entry 0 of
the stored top-of-book PRICE array of the quoted side for the insert leg
(the callback's volume arrays are never consulted), and entry 0 of an FTR
volume buffer that no handler ever assigns for the hedge leg. -/
theorem claim6_order_volume_sources (s : TraderState)
    (instrument : Instrument) (ap av bp bv : List Nat) :
    ∀ o ∈ ordersOf (marketUpdateHandler s instrument ap av bp bv),
      o.volume ≤ LOT_SIZE ∧
      (instrument = Instrument.ETF → o.kind = OrderKind.Insert →
        o.side = Side.SELL → o.volume = min LOT_SIZE (bp.getD 0 0)) ∧
      (instrument = Instrument.ETF → o.kind = OrderKind.Insert →
        o.side = Side.BUY → o.volume = min LOT_SIZE (ap.getD 0 0)) ∧
      (instrument = Instrument.FUTURE → o.kind = OrderKind.Insert →
        o.side = Side.SELL →
        o.volume = min LOT_SIZE (s.ETF_bid_arr.getD 0 0)) ∧
      (instrument = Instrument.FUTURE → o.kind = OrderKind.Insert →
        o.side = Side.BUY →
        o.volume = min LOT_SIZE (s.ETF_ask_arr.getD 0 0)) ∧
      (o.kind = OrderKind.Hedge → o.side = Side.BUY →
        o.volume = min LOT_SIZE (s.FTR_ask_vol_arr.getD 0 0)) ∧
      (o.kind = OrderKind.Hedge → o.side = Side.SELL →
        o.volume = min LOT_SIZE (s.FTR_bid_vol_arr.getD 0 0)) := by
  intro o ho
  cases instrument with
  | ETF =>
      have h := tradingBlock_orders (snapshotETF s ap bp) o ho
      simp only [snapshotETF] at h
      exact ⟨h.1, fun _ => h.2.1, fun _ => h.2.2.1,
        fun hc => absurd hc (by simp), fun hc => absurd hc (by simp),
        h.2.2.2.1, h.2.2.2.2⟩
  | FUTURE =>
      have h := tradingBlock_orders (snapshotFTR s ap bp) o ho
      simp only [snapshotFTR] at h
      exact ⟨h.1, fun hc => absurd hc (by simp), fun hc => absurd hc (by simp),
        fun _ => h.2.1, fun _ => h.2.2.1, h.2.2.2.1, h.2.2.2.2⟩

/-- Witness for C6: the amended statement applied to the concrete insert
order `o6` emitted from `s6`. -/
theorem claim6_order_volume_sources_witness :
    o6.volume ≤ LOT_SIZE ∧
    (Instrument.ETF = Instrument.ETF → o6.kind = OrderKind.Insert →
      o6.side = Side.SELL →
      o6.volume = min LOT_SIZE (([199] : List Nat).getD 0 0)) :=
  ⟨(claim6_order_volume_sources s6 Instrument.ETF [201] [9] [199] [3] o6
      (by decide)).1,
   (claim6_order_volume_sources s6 Instrument.ETF [201] [9] [199] [3] o6
      (by decide)).2.1⟩

/-- Counterexample for C7: at newest = 1, mean = 0, stddev = 1, the code
classifies FUTURE_RICH (the unsigned subtraction `mean - stddev` wraps to
2^64 - 1, and 1 < 2^64 - 1), but the claimed criterion newest < mean - stddev
is false over the integers (1 < -1 fails, so the claim demands NEUTRAL). -/
theorem claim7_counterexample :
    classify 1 0 1 = (false, true) ∧ ¬ ((1 : Int) < (0 : Int) - 1 * 1) := by
  decide

/-- Claim C7 as amended: the comparisons are made in unsigned 64-bit
arithmetic and the ETF_RICH test takes precedence in the if-cascade.
Unconditionally: ETF_RICH exactly when newest > (mean + stddev) mod 2^64;
FUTURE_RICH exactly when the ETF_RICH test fails AND
newest < (mean - stddev) mod 2^64; the two rich states are mutually
exclusive for every input.  Whenever neither threshold wraps (stddev ≤ mean
and mean + stddev < 2^64) this coincides with the claimed integer
comparisons: ETF_RICH iff newest > mean + stddev, FUTURE_RICH iff
newest < mean - stddev. -/
theorem claim7_classification_cascade (last avg sd : Nat) :
    (classify last avg sd = (true, false) ↔ uadd avg sd < last) ∧
    (classify last avg sd = (false, true) ↔
      (¬ uadd avg sd < last ∧ last < usub avg sd)) ∧
    classify last avg sd ≠ (true, true) ∧
    (sd ≤ avg → avg + sd < U64 →
      ((classify last avg sd = (true, false) ↔ avg + sd < last) ∧
       (classify last avg sd = (false, true) ↔ last < avg - sd))) := by
  unfold classify
  rw [one_mul]
  refine ⟨?_, ?_, ?_, fun hsd hov => ?_⟩
  · split_ifs <;> simp_all
  · split_ifs <;> simp_all
  · split_ifs <;> simp
  · rw [uadd_eq_of_lt hov, usub_eq_of_le hsd (by omega)]
    refine ⟨?_, ?_⟩ <;> split_ifs <;> simp_all <;> omega

/-- Witness for C7: the amended statement exercised both in wrap territory
(newest 5, mean 2^64 - 1, stddev 2, where the upper threshold wraps to 1 and
the precedence makes the verdict ETF_RICH) and at the no-wrap point
(newest 120, mean 100, stddev 10). -/
theorem claim7_classification_cascade_witness :
    (classify 5 (U64 - 1) 2 = (false, true) ↔
      (¬ uadd (U64 - 1) 2 < 5 ∧ 5 < usub (U64 - 1) 2)) ∧
    (classify 120 100 10 = (true, false) ↔ uadd 100 10 < 120) ∧
    classify 120 100 10 ≠ (true, true) ∧
    ((classify 120 100 10 = (true, false) ↔ 100 + 10 < 120) ∧
     (classify 120 100 10 = (false, true) ↔ 120 < 100 - 10)) :=
  ⟨(claim7_classification_cascade 5 (U64 - 1) 2).2.1,
   (claim7_classification_cascade 120 100 10).1,
   (claim7_classification_cascade 120 100 10).2.2.1,
   (claim7_classification_cascade 120 100 10).2.2.2 (by decide) (by decide)⟩

/-- Claim C8: a fill on a tracked ask subtracts the fill volume from the
position and sends exactly one offsetting hedge buy at MAX_ASK_NEAREST_TICK
sized to the fill volume; a fill on a tracked bid adds the volume and sends
one hedge sell at MIN_BID_NEARST_TICK; a fill on an untracked id changes
nothing and sends nothing. -/
theorem claim8_fill_applies_and_hedges (p : GatewayParams) (s : TraderState)
    (clientOrderId price volume : Nat) :
    (clientOrderId ∈ s.mAsks →
      (OrderFilledMessageHandler p s clientOrderId price volume).1.mPosition
          = s.mPosition - (volume : Int) ∧
      (OrderFilledMessageHandler p s clientOrderId price volume).2
          = [⟨OrderKind.Hedge, s.mNextMessageId, Side.BUY,
              MAX_ASK_NEAREST_TICK p.MAXIMUM_ASK, volume⟩] ∧
      (OrderFilledMessageHandler p s clientOrderId price volume).1.mAsks
          = s.mAsks ∧
      (OrderFilledMessageHandler p s clientOrderId price volume).1.mBids
          = s.mBids) ∧
    (clientOrderId ∉ s.mAsks → clientOrderId ∈ s.mBids →
      (OrderFilledMessageHandler p s clientOrderId price volume).1.mPosition
          = s.mPosition + (volume : Int) ∧
      (OrderFilledMessageHandler p s clientOrderId price volume).2
          = [⟨OrderKind.Hedge, s.mNextMessageId, Side.SELL,
              MIN_BID_NEARST_TICK p.MINIMUM_BID, volume⟩] ∧
      (OrderFilledMessageHandler p s clientOrderId price volume).1.mAsks
          = s.mAsks ∧
      (OrderFilledMessageHandler p s clientOrderId price volume).1.mBids
          = s.mBids) ∧
    (clientOrderId ∉ s.mAsks → clientOrderId ∉ s.mBids →
      OrderFilledMessageHandler p s clientOrderId price volume = (s, [])) := by
  unfold OrderFilledMessageHandler
  refine ⟨fun h1 => ?_, fun h1 h2 => ?_, fun h1 h2 => ?_⟩
  · rw [if_pos h1]; exact ⟨rfl, rfl, rfl, rfl⟩
  · rw [if_neg h1, if_pos h2]; exact ⟨rfl, rfl, rfl, rfl⟩
  · rw [if_neg h1, if_neg h2]

/-- Witness for C8: a fill of volume 10 on the tracked ask 7 in `s8`. -/
theorem claim8_fill_applies_and_hedges_witness :
    (OrderFilledMessageHandler p0 s8 7 15000 10).1.mPosition
        = s8.mPosition - ((10 : Nat) : Int) ∧
    (OrderFilledMessageHandler p0 s8 7 15000 10).2
        = [⟨OrderKind.Hedge, s8.mNextMessageId, Side.BUY,
            MAX_ASK_NEAREST_TICK p0.MAXIMUM_ASK, 10⟩] ∧
    (OrderFilledMessageHandler p0 s8 7 15000 10).1.mAsks = s8.mAsks ∧
    (OrderFilledMessageHandler p0 s8 7 15000 10).1.mBids = s8.mBids :=
  (claim8_fill_applies_and_hedges p0 s8 7 15000 10).1 (by decide)

/-- Claim C9: an error callback for a nonzero tracked id acts exactly as a
status update with zero fill and zero remaining volume: the id is erased from
both tracking sets, the matching price-tracking slot (`mAskId`, else
`mBidId`) is cleared, the position is untouched, every other tracked order is
unaffected; an error for id 0 or an untracked id leaves the state unchanged,
and no error callback ever sends an order (no retry). -/
theorem claim9_error_force_close (s : TraderState) (clientOrderId : Nat) :
    (clientOrderId ≠ 0 →
      clientOrderId ∈ s.mAsks ∨ clientOrderId ∈ s.mBids →
      ErrorMessageHandler s clientOrderId
          = OrderStatusMessageHandler s clientOrderId 0 0 0 ∧
      (ErrorMessageHandler s clientOrderId).mAsks
          = s.mAsks.erase clientOrderId ∧
      (ErrorMessageHandler s clientOrderId).mBids
          = s.mBids.erase clientOrderId ∧
      (ErrorMessageHandler s clientOrderId).mAskId
          = (if clientOrderId = s.mAskId then 0 else s.mAskId) ∧
      (ErrorMessageHandler s clientOrderId).mBidId
          = (if clientOrderId ≠ s.mAskId ∧ clientOrderId = s.mBidId then 0
             else s.mBidId) ∧
      (ErrorMessageHandler s clientOrderId).mPosition = s.mPosition ∧
      (∀ j, j ≠ clientOrderId →
        (j ∈ (ErrorMessageHandler s clientOrderId).mAsks ↔ j ∈ s.mAsks) ∧
        (j ∈ (ErrorMessageHandler s clientOrderId).mBids ↔ j ∈ s.mBids))) ∧
    ((clientOrderId = 0 ∨
        (clientOrderId ∉ s.mAsks ∧ clientOrderId ∉ s.mBids)) →
      ErrorMessageHandler s clientOrderId = s) ∧
    (∀ p, ordersOf (step p s (Callback.errorMessage clientOrderId)) = []) := by
  refine ⟨fun h0 hmem => ?_, fun h => ?_, fun p => rfl⟩
  · have hcond : clientOrderId ≠ 0 ∧
        (clientOrderId ∈ s.mAsks ∨ clientOrderId ∈ s.mBids) := ⟨h0, hmem⟩
    unfold ErrorMessageHandler
    rw [if_pos hcond]
    unfold OrderStatusMessageHandler
    rw [if_pos rfl]
    refine ⟨rfl, ?_, ?_, ?_, ?_, ?_, ?_⟩
    · split_ifs <;> rfl
    · split_ifs <;> rfl
    · split_ifs <;> simp_all
    · split_ifs <;> simp_all
    · split_ifs <;> rfl
    · intro j hj
      constructor
      · constructor <;> split_ifs <;>
          simp [Finset.mem_erase, hj]
      · constructor <;> split_ifs <;>
          simp [Finset.mem_erase, hj]
  · unfold ErrorMessageHandler
    rw [if_neg]
    rcases h with h | h
    · simp [h]
    · simp [h.1, h.2]

/-- Witness for C9: the error callback for the tracked id 5 in `s9`. -/
theorem claim9_error_force_close_witness :
    (ErrorMessageHandler s9 5).mAsks = s9.mAsks.erase 5 ∧
    (ErrorMessageHandler s9 5).mAskId
        = (if (5 : Nat) = s9.mAskId then 0 else s9.mAskId) ∧
    (7 ∈ (ErrorMessageHandler s9 5).mAsks ↔ 7 ∈ s9.mAsks) := by
  have h := (claim9_error_force_close s9 5).1 (by decide) (by decide)
  exact ⟨h.2.1, h.2.2.2.1, (h.2.2.2.2.2.2 7 (by decide)).1⟩

/-- Claim C10: the spread sample appended by the market-update handlers is
the difference of the two newest midprices reduced modulo 2^64 as an
unsigned value: it equals the integer difference mod 2^64, wraps to
2^64 - (ftr - etf) whenever the future midprice exceeds the ETF midprice,
and it is this wrapped value that lands in the spread history consumed by
`deterMineOrderStatus`. -/
theorem claim10_spread_wraps_modulo_u64 (e f : Nat) (he : e < U64)
    (hf : f < U64) :
    spreadSample e f = (((e : Int) - (f : Int)) % (U64 : Int)).toNat ∧
    (e < f → spreadSample e f = U64 - (f - e)) ∧
    (∀ s : TraderState,
      s.ETF_recent_mp_prices.getLastD 0 = e →
      s.FTR_recent_mp_prices.getLastD 0 = f →
      s.ETF_recent_mp_prices.length = s.FTR_recent_mp_prices.length →
      signalStep s ≠ none →
      diffHistoryOf (signalStep s) =
        s.DIFF_recent_mp_prices ++ [spreadSample e f]) := by
  refine ⟨?_, ?_, ?_⟩
  · have hU : U64 = 18446744073709551616 := by norm_num [U64]
    simp only [spreadSample, usub, hU] at *
    omega
  · intro hef
    have hU : U64 = 18446744073709551616 := by norm_num [U64]
    simp only [spreadSample, usub, hU] at *
    omega
  · intro s hse hsf hl hne
    unfold signalStep at hne ⊢
    rw [if_pos hl] at hne ⊢
    dsimp only at hne ⊢
    rw [hse, hsf] at hne ⊢
    cases hm : deterMineOrderStatus
        (s.DIFF_recent_mp_prices ++ [spreadSample e f]) with
    | none => rw [hm] at hne; exact absurd rfl hne
    | some ef =>
        cases ef with
        | mk e1 f1 => rfl

/-- Witness for C10: ETF midprice 100, FUTURE midprice 250 in state `sA`:
the pushed sample wraps to 2^64 - 150. -/
theorem claim10_spread_wraps_modulo_u64_witness :
    spreadSample 100 250 = U64 - (250 - 100) ∧
    diffHistoryOf (signalStep sA) =
      sA.DIFF_recent_mp_prices ++ [spreadSample 100 250] :=
  ⟨(claim10_spread_wraps_modulo_u64 100 250 (by norm_num [U64])
      (by norm_num [U64])).2.1 (by norm_num),
   (claim10_spread_wraps_modulo_u64 100 250 (by norm_num [U64])
      (by norm_num [U64])).2.2 sA rfl rfl rfl (by decide)⟩

end AutoTrader
